import Mathlib

/-!
Verification of the pty-rs fork/PTY establishment protocol.

The development shallowly embeds the two source files of the repository:

- src/fork/mod.rs : the Fork protocol (Fork::new, Fork::from_pts,
  Fork::from_ptmx, Fork::wait, Fork::is_father, Fork::is_child, Drop).
  Every OS call outcome is an input supplied by an Env record, and each
  embedded function additionally returns the list of OS calls it performed
  (an event trace), so that claims of the form "X is not attempted" and
  claims about call order become statements about that trace.

- src/lib.rs : the legacy API (Child, ChildPTY, Child::wait, the Read
  impl of ChildPTY), embedded the same way where needed.

The modules pty.rs, err.rs and descriptor.rs of the repository are not
under src; the types they declare (Master, Slave, their error types, the
ForkError enum, the Descriptor close) are modelled from the spec, as
marked on each such definition. All control flow is translated from
src/fork/mod.rs and src/lib.rs.

A central point of fidelity: Rust evaluates both operands of Option::or
eagerly (or takes its argument by value; only or_else is lazy). Hence in

  master.grantpt().err().or(master.unlockpt().err())

unlockpt is always called, even when grantpt failed, and in

  slave.dup2(STDIN).err().or(slave.dup2(STDOUT).err().or(slave.dup2(STDERR).err()))

all three dup2 calls are always performed. The embedding records all of
these events unconditionally, exactly as the Rust evaluation order does,
and combines the outcome values with rust_or, which returns the first
error present (same value semantics as Option::or).
-/

/-- Modelled from the spec: pty.rs is not under src. The Master owns the
descriptor of the controlling end of the PTY pair (spec section 3). -/
structure Master where
  fd : Int
deriving DecidableEq, Repr

/-- Modelled from the spec: pty.rs is not under src. The Slave owns the
descriptor of the terminal-facing end, opened by path name. -/
structure Slave where
  fd : Int
deriving DecidableEq, Repr

/-- Modelled from the spec: err.rs and pty.rs are not under src. A master
operation failure carrying the underlying OS error code (spec section 7). -/
structure MasterError where
  errno : Int
deriving DecidableEq, Repr

/-- Modelled from the spec: err.rs and pty.rs are not under src. A slave
operation failure carrying the underlying OS error code (spec section 7). -/
structure SlaveError where
  errno : Int
deriving DecidableEq, Repr

/-- Modelled from the spec section 7 and the uses in src/fork/mod.rs:
the ForkError enum of err.rs, which is not under src. -/
inductive ForkError where
  | BadMaster (cause : MasterError)
  | BadSlave (cause : SlaveError)
  | Failure
  | SetsidFail
  | WaitpidFail
  | IsChild
  | IsFather
deriving DecidableEq, Repr

/-- The Fork sum type of src/fork/mod.rs: Father holds the child pid and
the Master, Child holds the Slave. -/
inductive Fork where
  | Father (pid : Int) (master : Master)
  | Child (slave : Slave)
deriving DecidableEq, Repr

/-- OS calls performed by the embedded functions, recorded as a trace. -/
inductive Event where
  | masterNewCall
  | grantptCall
  | unlockptCall
  | forkCall
  | ptsnameCall
  | setsidCall
  | slaveNewCall
  | dup2Call (slot : Int)
  | waitpidCall (pid : Int)
  | closeFd (fd : Int)
deriving DecidableEq, Repr

def STDIN_FILENO : Int := 0
def STDOUT_FILENO : Int := 1
def STDERR_FILENO : Int := 2

/-- Outcomes of the OS calls made by one run of the Fork protocol. Each
field is the result the corresponding OS primitive would return; the
embedded control flow consults them in program order. -/
structure Env where
  masterNew : String → Except MasterError Master
  grantpt : Except MasterError Unit
  unlockpt : Except MasterError Unit
  forkRes : Int
  ptsname : Except MasterError String
  setsidRes : Int
  slaveNew : String → Except SlaveError Slave
  dup2Stdin : Except SlaveError Int
  dup2Stdout : Except SlaveError Int
  dup2Stderr : Except SlaveError Int

/-- Result::err of Rust: the error component of a result, when present. -/
def errOf {ε α : Type} : Except ε α → Option ε
  | Except.error e => some e
  | Except.ok _ => none

/-- Value semantics of Option::or of Rust: first operand when it is some,
otherwise the second. Note that Rust evaluates both operands before the
call; the embedding therefore records the events of both operands
unconditionally wherever rust_or is used. -/
def rust_or {α : Type} : Option α → Option α → Option α
  | some x, _ => some x
  | none, b => b

/-- CString::new(path).ok().unwrap_or_default() of Fork::new: a path with
an interior NUL byte fails CString conversion and collapses to the empty
default CString. -/
def cstring_of (path : String) : String :=
  if path.any (fun ch => ch = Char.ofNat 0) then "" else path

/-- Fork::from_pts of src/fork/mod.rs: setsid first (failure is
SetsidFail), then Slave::new on the pts name (failure is BadSlave), then
the chain of the three dup2 calls combined with Option::or. All three
dup2 calls are performed whenever Slave::new succeeded, because the
operands of Option::or are evaluated eagerly; the reported cause is the
first failure among them. Returns the result paired with the trace of OS
calls performed. -/
def Fork.from_pts (ptsname : String) (env : Env) :
    Except ForkError Fork × List Event :=
  if env.setsidRes = -1 then
    (Except.error ForkError.SetsidFail, [Event.setsidCall])
  else
    match env.slaveNew ptsname with
    | Except.error cause =>
        (Except.error (ForkError.BadSlave cause),
         [Event.setsidCall, Event.slaveNewCall])
    | Except.ok slave =>
        match rust_or (errOf env.dup2Stdin)
              (rust_or (errOf env.dup2Stdout) (errOf env.dup2Stderr)) with
        | some cause =>
            (Except.error (ForkError.BadSlave cause),
             [Event.setsidCall, Event.slaveNewCall,
              Event.dup2Call STDIN_FILENO, Event.dup2Call STDOUT_FILENO,
              Event.dup2Call STDERR_FILENO])
        | none =>
            (Except.ok (Fork.Child slave),
             [Event.setsidCall, Event.slaveNewCall,
              Event.dup2Call STDIN_FILENO, Event.dup2Call STDOUT_FILENO,
              Event.dup2Call STDERR_FILENO])

/-- Fork::new of src/fork/mod.rs: Master::new on the CString of the path
(failure is BadMaster), then the grantpt and unlockpt calls combined with
Option::or — both are performed whenever Master::new succeeded, because
the operands of Option::or are evaluated eagerly; the reported cause is
the grant failure when grant failed, otherwise the unlock failure. Then
fork: -1 is Failure, 0 enters the child branch, which resolves ptsname on
the inherited Master (failure is BadMaster) and continues in
Fork.from_pts; a positive pid ends in Father. -/
def Fork.new (path : String) (env : Env) :
    Except ForkError Fork × List Event :=
  match env.masterNew (cstring_of path) with
  | Except.error cause =>
      (Except.error (ForkError.BadMaster cause), [Event.masterNewCall])
  | Except.ok master =>
      match rust_or (errOf env.grantpt) (errOf env.unlockpt) with
      | some cause =>
          (Except.error (ForkError.BadMaster cause),
           [Event.masterNewCall, Event.grantptCall, Event.unlockptCall])
      | none =>
          if env.forkRes = -1 then
            (Except.error ForkError.Failure,
             [Event.masterNewCall, Event.grantptCall, Event.unlockptCall,
              Event.forkCall])
          else if env.forkRes = 0 then
            match env.ptsname with
            | Except.error cause =>
                (Except.error (ForkError.BadMaster cause),
                 [Event.masterNewCall, Event.grantptCall, Event.unlockptCall,
                  Event.forkCall, Event.ptsnameCall])
            | Except.ok name =>
                let r := Fork.from_pts name env
                (r.1,
                 [Event.masterNewCall, Event.grantptCall, Event.unlockptCall,
                  Event.forkCall, Event.ptsnameCall] ++ r.2)
          else
            (Except.ok (Fork.Father env.forkRes master),
             [Event.masterNewCall, Event.grantptCall, Event.unlockptCall,
              Event.forkCall])

/-- Modelled from the spec: the DEFAULT_PTMX constant referenced by
Fork::from_ptmx is not under src; the spec names it the platform-standard
PTY multiplexer device path. -/
def DEFAULT_PTMX : String := "/dev/ptmx"

/-- Fork::from_ptmx of src/fork/mod.rs: Fork::new at DEFAULT_PTMX. -/
def Fork.from_ptmx (env : Env) : Except ForkError Fork × List Event :=
  Fork.new DEFAULT_PTMX env

/-- The waitpid retry loop of Fork::wait: the list holds the successive
return values of libc::waitpid(pid, ...); 0 retries, -1 is WaitpidFail,
anything else returns the stored pid. A result of none means the supplied
outcomes were exhausted with the loop still running. -/
def Fork.waitpidLoop (pid : Int) : List Int → Option (Except ForkError Int) × List Event
  | [] => (none, [])
  | r :: rs =>
      if r = 0 then
        let t := Fork.waitpidLoop pid rs
        (t.1, Event.waitpidCall pid :: t.2)
      else if r = -1 then
        (some (Except.error ForkError.WaitpidFail), [Event.waitpidCall pid])
      else
        (some (Except.ok pid), [Event.waitpidCall pid])

/-- Fork::wait of src/fork/mod.rs: the Child variant fails with IsChild
before any OS call; the Father variant runs the waitpid loop on its
stored pid. -/
def Fork.wait (f : Fork) (results : List Int) :
    Option (Except ForkError Int) × List Event :=
  match f with
  | Fork.Child _ => (some (Except.error ForkError.IsChild), [])
  | Fork.Father pid _ => Fork.waitpidLoop pid results

/-- Fork::is_father of src/fork/mod.rs: the Master (a clone, which is the
same value) on the Father variant, IsChild on the Child variant. -/
def Fork.is_father : Fork → Except ForkError Master
  | Fork.Child _ => Except.error ForkError.IsChild
  | Fork.Father _ master => Except.ok master

/-- Fork::is_child of src/fork/mod.rs: the Slave on the Child variant,
IsFather on the Father variant. -/
def Fork.is_child : Fork → Except ForkError Slave
  | Fork.Father _ _ => Except.error ForkError.IsFather
  | Fork.Child slave => Except.ok slave

/-- The Drop impl of Fork in src/fork/mod.rs, as the list of close events
it emits: the Father arm calls Descriptor::drop on the Master, every
other arm does nothing. Descriptor::drop is modelled from the spec
(descriptor.rs is not under src): it closes the underlying descriptor of
the handle. Rust runs Drop::drop at most once per value lifetime. -/
def Fork.drop : Fork → List Event
  | Fork.Father _ master => [Event.closeFd master.fd]
  | Fork.Child _ => []

/-- An occurrence of a strictly before an occurrence of b in the trace. -/
def precedes (a b : Event) : List Event → Bool
  | [] => false
  | x :: xs => (x = a && xs.contains b) || precedes a b xs

/-- A type representing the pty of the child process (src/lib.rs). -/
structure ChildPTY where
  fd : Int
deriving DecidableEq, Repr

/-- A type representing the child process (src/lib.rs): a pid and an
optional pty. -/
structure Child where
  pid : Int
  pty : Option ChildPTY
deriving DecidableEq, Repr

/-- Modelled from the nix crate as used by src/lib.rs: the status
variants returned by wait::waitpid. Child::wait only distinguishes
StillAlive from every other variant, so the payloads of the remaining
variants are irrelevant to the embedded control flow and are omitted. -/
inductive WaitStatus where
  | Exited
  | Signaled
  | Stopped
  | Continued
  | StillAlive
deriving DecidableEq, Repr

/-- Modelled from the nix crate as used by src/lib.rs: an OS error from
waitpid, carrying the errno whose description Child::wait returns. -/
structure NixError where
  errno : Int
deriving DecidableEq, Repr

/-- Possible outcomes of one call of Child::wait in the embedding: a
normal return after closing the pty, a returned error description, or a
panic (the unwrap of an absent pty). -/
inductive ChildWaitOutcome where
  | ok
  | oserr (e : NixError)
  | panicked
deriving DecidableEq, Repr

/-- Child::wait of src/lib.rs: loop on wait::waitpid(self.pid, None).
An Err returns the error description; Ok(StillAlive) continues the loop;
any other Ok status runs self.pty().unwrap().close() and returns Ok(()).
When self.pty is None that unwrap panics, which the embedding reports as
the panicked outcome. The list holds the successive waitpid results; none
means they were exhausted with the loop still running. -/
def Child.wait (c : Child) : List (Except NixError WaitStatus) → Option ChildWaitOutcome
  | [] => none
  | Except.error e :: _ => some (ChildWaitOutcome.oserr e)
  | Except.ok WaitStatus.StillAlive :: rest => Child.wait c rest
  | Except.ok WaitStatus.Exited :: _ =>
      match c.pty with
      | some _ => some ChildWaitOutcome.ok
      | none => some ChildWaitOutcome.panicked
  | Except.ok WaitStatus.Signaled :: _ =>
      match c.pty with
      | some _ => some ChildWaitOutcome.ok
      | none => some ChildWaitOutcome.panicked
  | Except.ok WaitStatus.Stopped :: _ =>
      match c.pty with
      | some _ => some ChildWaitOutcome.ok
      | none => some ChildWaitOutcome.panicked
  | Except.ok WaitStatus.Continued :: _ =>
      match c.pty with
      | some _ => some ChildWaitOutcome.ok
      | none => some ChildWaitOutcome.panicked

/-- The Child value built in the pid == 0 branch of fork() in src/lib.rs:
Child with pid 0 and pty None. -/
def fork_child_value : Child :=
  { pid := 0, pty := none }

/-- The io::Error of src/lib.rs, abstracted: its content never influences
the embedded control flow. -/
structure IOError where
deriving DecidableEq, Repr

/-- to_result of src/lib.rs: a C return value of -1 becomes an error
(io::Error::last_os_error()), anything else is Ok. -/
def to_result (r : Int) : Except IOError Int :=
  if r = -1 then Except.error {} else Except.ok r

/-- The read method of the Read impl for ChildPTY in src/lib.rs: the
argument is the return value of the underlying libc::read call. On Ok the
value is cast with as usize (64-bit wraparound); on Err the method
returns Ok(0) instead of propagating the error. -/
def ChildPTY.read (_c : ChildPTY) (osRead : Int) : Except IOError Nat :=
  match to_result osRead with
  | Except.ok nread => Except.ok ((nread % (2 : Int) ^ 64).toNat)
  | Except.error _ => Except.ok 0

/-- An environment in which every OS call of the Fork protocol succeeds
and fork returns 0 (the child branch). -/
def envChildOk : Env :=
  { masterNew := fun _ => Except.ok { fd := 3 }
  , grantpt := Except.ok ()
  , unlockpt := Except.ok ()
  , forkRes := 0
  , ptsname := Except.ok "/dev/pts/5"
  , setsidRes := 7
  , slaveNew := fun _ => Except.ok { fd := 4 }
  , dup2Stdin := Except.ok 0
  , dup2Stdout := Except.ok 1
  , dup2Stderr := Except.ok 2 }

/-- envChildOk with a failing duplication onto standard input. -/
def envDup2StdinFails : Env :=
  { envChildOk with dup2Stdin := Except.error { errno := 9 } }

/-- envChildOk with a failing grant step. -/
def envGrantFails : Env :=
  { envChildOk with grantpt := Except.error { errno := 13 } }

theorem waitpidLoop_spec (pid : Int) (zs : List Int) (r : Int) (rest : List Int)
    (hz : ∀ x ∈ zs, x = 0) (hr : r ≠ 0) :
    Fork.waitpidLoop pid (zs ++ r :: rest) =
      (some (if r = -1 then Except.error ForkError.WaitpidFail else Except.ok pid),
       List.replicate (zs.length + 1) (Event.waitpidCall pid)) := by
  induction zs with
  | nil =>
      by_cases h1 : r = -1 <;>
        simp [Fork.waitpidLoop, hr, h1, List.replicate]
  | cons a as ih =>
      have ha : a = 0 := hz a (by simp)
      subst ha
      have ih2 := ih (fun x hx => hz x (by simp [hx]))
      simp [Fork.waitpidLoop, ih2, List.replicate_succ]

/-- C4: Fork::wait on the Child variant returns the IsChild error for
every child value and every sequence of waitpid outcomes, with an empty
event trace — the underlying waitpid call is never invoked and the loop
is never entered, so the call cannot block. -/
theorem fork_wait_child_is_child (s : Slave) (results : List Int) :
    Fork.wait (Fork.Child s) results =
      (some (Except.error ForkError.IsChild), []) := rfl

/-- C5: Fork::wait on the Father variant consumes every leading zero
result of waitpid (the retry on no state change), then returns
WaitpidFail exactly when the first nonzero result is -1 and otherwise the
same pid the handle was constructed with; the trace shows one waitpid
call per retry, always on that same pid. -/
theorem wait_father_spec (pid : Int) (m : Master) (zs : List Int) (r : Int)
    (rest : List Int) (hz : ∀ x ∈ zs, x = 0) (hr : r ≠ 0) :
    Fork.wait (Fork.Father pid m) (zs ++ r :: rest) =
      (some (if r = -1 then Except.error ForkError.WaitpidFail else Except.ok pid),
       List.replicate (zs.length + 1) (Event.waitpidCall pid)) :=
  waitpidLoop_spec pid zs r rest hz hr

/-- Witness for C5 at pid 9 with two spurious zero results and then a
successful nonzero status. -/
theorem wait_father_spec_witness :
    Fork.wait (Fork.Father 9 { fd := 3 }) ([0, 0] ++ 5 :: [0]) =
      (some (if (5 : Int) = -1 then Except.error ForkError.WaitpidFail
             else Except.ok 9),
       List.replicate (([0, 0] : List Int).length + 1) (Event.waitpidCall 9)) :=
  wait_father_spec 9 { fd := 3 } [0, 0] 5 [0] (by decide) (by decide)

/-- C6: Fork::is_father returns the Master on the Father variant and the
IsChild error on the Child variant; Fork::is_child returns the Slave on
the Child variant and the IsFather error on the Father variant. Both are
total Lean functions over the whole Fork type, with no panic outcome in
their result type. -/
theorem fork_accessors_total (pid : Int) (m : Master) (s : Slave) :
    Fork.is_father (Fork.Father pid m) = Except.ok m ∧
    Fork.is_father (Fork.Child s) = Except.error ForkError.IsChild ∧
    Fork.is_child (Fork.Father pid m) = Except.error ForkError.IsFather ∧
    Fork.is_child (Fork.Child s) = Except.ok s :=
  ⟨rfl, rfl, rfl, rfl⟩

/-- C7: the Drop impl of Fork emits at most one close event per handle,
and it closes a descriptor exactly when the handle is the Father variant,
in which case the closed descriptor is that of its Master; dropping a
Child-variant handle closes nothing. -/
theorem fork_drop_close_iff (f : Fork) :
    (Fork.drop f).length ≤ 1 ∧
    (∀ fd : Int, Event.closeFd fd ∈ Fork.drop f ↔
       ∃ pid m, f = Fork.Father pid m ∧ m.fd = fd) := by
  cases f with
  | Father pid m =>
      refine ⟨by simp [Fork.drop], fun fd => ?_⟩
      simp only [Fork.drop, List.mem_singleton, Event.closeFd.injEq]
      constructor
      · intro h
        exact ⟨pid, m, rfl, h.symm⟩
      · rintro ⟨pid2, m2, heq, hfd⟩
        cases heq
        exact hfd.symm
  | Child s =>
      refine ⟨by simp [Fork.drop], fun fd => ?_⟩
      simp [Fork.drop]

/-- C8: Fork::from_ptmx is extensionally equal to Fork::new applied to
the DEFAULT_PTMX device path constant: for every environment of OS call
outcomes both produce the same result and the same event trace. -/
theorem from_ptmx_eq_new_default (env : Env) :
    Fork.from_ptmx env = Fork.new DEFAULT_PTMX env := rfl

/-- C9: the read method of ChildPTY never returns an error value: for
every return value of the underlying OS read it produces an Ok result,
and when the OS read fails (returns -1) the result is Ok 0,
indistinguishable from end of file. -/
theorem childpty_read_total (c : ChildPTY) (r : Int) :
    (∃ n, ChildPTY.read c r = Except.ok n) ∧
    (r = -1 → ChildPTY.read c r = Except.ok 0) := by
  constructor
  · by_cases h : r = -1
    · exact ⟨0, by simp [ChildPTY.read, to_result, h]⟩
    · exact ⟨(r % (2 : Int) ^ 64).toNat, by simp [ChildPTY.read, to_result, h]⟩
  · intro h
    simp [ChildPTY.read, to_result, h]

/-- Witness for C9 at a failing OS read. -/
theorem childpty_read_total_witness :
    (∃ n, ChildPTY.read { fd := 5 } (-1) = Except.ok n) ∧
    ((-1 : Int) = -1 → ChildPTY.read { fd := 5 } (-1) = Except.ok 0) :=
  childpty_read_total { fd := 5 } (-1)

/-- C10: Child::wait of src/lib.rs invoked on the value the child branch
of fork() produces (pid 0, pty None) panics as soon as waitpid reports
any successful non-StillAlive status, after any number of StillAlive
retries: the unwrap of the absent pty is reached instead of a typed
error. -/
theorem child_wait_panics_on_absent_pty (n : Nat) (st : WaitStatus)
    (rest : List (Except NixError WaitStatus)) (h : st ≠ WaitStatus.StillAlive) :
    Child.wait fork_child_value
        (List.replicate n (Except.ok WaitStatus.StillAlive) ++ Except.ok st :: rest) =
      some ChildWaitOutcome.panicked := by
  induction n with
  | zero =>
      cases st with
      | StillAlive => exact absurd rfl h
      | Exited => rfl
      | Signaled => rfl
      | Stopped => rfl
      | Continued => rfl
  | succ k ih =>
      rw [List.replicate_succ, List.cons_append]
      exact ih

/-- Witness for C10: one StillAlive retry and then a successful exit
status reaches the panic. -/
theorem child_wait_panics_on_absent_pty_witness :
    Child.wait fork_child_value
        (List.replicate 1 (Except.ok WaitStatus.StillAlive) ++
         Except.ok WaitStatus.Exited :: []) =
      some ChildWaitOutcome.panicked :=
  child_wait_panics_on_absent_pty 1 WaitStatus.Exited [] (by decide)

/-- Counterexample to C1 as stated: in an environment where the child
branch is reached and the duplication onto standard input fails, the
duplications onto standard output and standard error ARE still attempted
(they appear in the event trace), because both operands of Option::or are
evaluated before the call. -/
theorem dup2_short_circuit_refuted :
    envDup2StdinFails.dup2Stdin = Except.error { errno := 9 } ∧
    Event.dup2Call STDOUT_FILENO ∈ (Fork.new "/dev/ptmx" envDup2StdinFails).2 ∧
    Event.dup2Call STDERR_FILENO ∈ (Fork.new "/dev/ptmx" envDup2StdinFails).2 :=
  ⟨rfl, by decide, by decide⟩

/-- C1 amended: in the child branch, when the slave opened successfully
and the duplication onto standard input fails, the duplications onto
standard output and standard error are still attempted (the operands of
the Option::or chain are evaluated eagerly), and the protocol returns
BadSlave carrying the cause of the first failure, namely the standard
input one. -/
theorem dup2_all_attempted_first_cause (p : String) (env : Env) (m : Master)
    (name : String) (s : Slave) (c : SlaveError)
    (hm : env.masterNew (cstring_of p) = Except.ok m)
    (hg : env.grantpt = Except.ok ())
    (hu : env.unlockpt = Except.ok ())
    (hf : env.forkRes = 0)
    (hp : env.ptsname = Except.ok name)
    (hsid : ¬ env.setsidRes = -1)
    (hs : env.slaveNew name = Except.ok s)
    (hd : env.dup2Stdin = Except.error c) :
    (Fork.new p env).1 = Except.error (ForkError.BadSlave c) ∧
    Event.dup2Call STDOUT_FILENO ∈ (Fork.new p env).2 ∧
    Event.dup2Call STDERR_FILENO ∈ (Fork.new p env).2 := by
  have hres : Fork.new p env =
      (Except.error (ForkError.BadSlave c),
       [Event.masterNewCall, Event.grantptCall, Event.unlockptCall,
        Event.forkCall, Event.ptsnameCall, Event.setsidCall,
        Event.slaveNewCall, Event.dup2Call STDIN_FILENO,
        Event.dup2Call STDOUT_FILENO, Event.dup2Call STDERR_FILENO]) := by
    simp [Fork.new, Fork.from_pts, hm, hg, hu, hf, hp, hsid, hs, hd,
      errOf, rust_or]
  have htr : (Fork.new p env).2 =
      [Event.masterNewCall, Event.grantptCall, Event.unlockptCall,
       Event.forkCall, Event.ptsnameCall, Event.setsidCall,
       Event.slaveNewCall, Event.dup2Call STDIN_FILENO,
       Event.dup2Call STDOUT_FILENO, Event.dup2Call STDERR_FILENO] := by
    rw [hres]
  refine ⟨?_, ?_, ?_⟩
  · rw [hres]
  · rw [htr]; decide
  · rw [htr]; decide

/-- Witness for the amended C1 in the concrete failing environment. -/
theorem dup2_all_attempted_first_cause_witness :
    (Fork.new "/dev/ptmx" envDup2StdinFails).1 =
      Except.error (ForkError.BadSlave { errno := 9 }) ∧
    Event.dup2Call STDOUT_FILENO ∈ (Fork.new "/dev/ptmx" envDup2StdinFails).2 ∧
    Event.dup2Call STDERR_FILENO ∈ (Fork.new "/dev/ptmx" envDup2StdinFails).2 :=
  dup2_all_attempted_first_cause "/dev/ptmx" envDup2StdinFails
    { fd := 3 } "/dev/pts/5" { fd := 4 } { errno := 9 }
    rfl rfl rfl rfl rfl (by decide) rfl rfl

/-- Counterexample to C2 as stated: in an environment where master
allocation succeeds but the grant step fails, the unlock step IS still
attempted (it appears in the event trace), because both operands of
Option::or are evaluated before the call. -/
theorem grant_fail_short_circuit_refuted :
    envGrantFails.grantpt = Except.error { errno := 13 } ∧
    Event.unlockptCall ∈ (Fork.new "/dev/ptmx" envGrantFails).2 :=
  ⟨rfl, by decide⟩

/-- C2 amended: when master allocation succeeds and the grant step fails,
the unlock step is still attempted (the operands of Option::or are
evaluated eagerly), but the fork primitive and every child-branch step
are not attempted, and the protocol returns BadMaster carrying the cause
of the grant failure. -/
theorem grant_fail_unlock_attempted_no_fork (p : String) (env : Env)
    (m : Master) (c : MasterError)
    (hm : env.masterNew (cstring_of p) = Except.ok m)
    (hg : env.grantpt = Except.error c) :
    (Fork.new p env).1 = Except.error (ForkError.BadMaster c) ∧
    Event.unlockptCall ∈ (Fork.new p env).2 ∧
    Event.forkCall ∉ (Fork.new p env).2 ∧
    Event.setsidCall ∉ (Fork.new p env).2 := by
  have hres : Fork.new p env =
      (Except.error (ForkError.BadMaster c),
       [Event.masterNewCall, Event.grantptCall, Event.unlockptCall]) := by
    simp [Fork.new, hm, hg, errOf, rust_or]
  have htr : (Fork.new p env).2 =
      [Event.masterNewCall, Event.grantptCall, Event.unlockptCall] := by
    rw [hres]
  refine ⟨?_, ?_, ?_, ?_⟩
  · rw [hres]
  · rw [htr]; decide
  · rw [htr]; decide
  · rw [htr]; decide

/-- Witness for the amended C2 in the concrete failing environment. -/
theorem grant_fail_unlock_attempted_no_fork_witness :
    (Fork.new "/dev/ptmx" envGrantFails).1 =
      Except.error (ForkError.BadMaster { errno := 13 }) ∧
    Event.unlockptCall ∈ (Fork.new "/dev/ptmx" envGrantFails).2 ∧
    Event.forkCall ∉ (Fork.new "/dev/ptmx" envGrantFails).2 ∧
    Event.setsidCall ∉ (Fork.new "/dev/ptmx" envGrantFails).2 :=
  grant_fail_unlock_attempted_no_fork "/dev/ptmx" envGrantFails
    { fd := 3 } { errno := 13 } rfl rfl

/-- Counterexample to C3 as stated: on a fully successful child run the
trace shows the ptsname resolution strictly before the setsid call, not
after it — Fork::new resolves the slave path name in the child branch and
only then calls Fork::from_pts, which starts with setsid. -/
theorem setsid_before_ptsname_refuted :
    precedes Event.ptsnameCall Event.setsidCall
      (Fork.new "/dev/ptmx" envChildOk).2 = true ∧
    precedes Event.setsidCall Event.ptsnameCall
      (Fork.new "/dev/ptmx" envChildOk).2 = false :=
  ⟨by decide, by decide⟩

/-- C3 amended: the child path performs its steps in the order: resolve
the slave path from the Master inherited across the fork, then become
session leader, then open the Slave, then duplicate it onto the three
standard stream slots; if becoming session leader fails the protocol
returns SetsidFail without opening or duplicating the slave. -/
theorem child_path_order (p : String) (env : Env) (m : Master)
    (name : String) (s : Slave) (i0 i1 i2 : Int)
    (hm : env.masterNew (cstring_of p) = Except.ok m)
    (hg : env.grantpt = Except.ok ())
    (hu : env.unlockpt = Except.ok ())
    (hf : env.forkRes = 0)
    (hp : env.ptsname = Except.ok name)
    (hs : env.slaveNew name = Except.ok s)
    (hd0 : env.dup2Stdin = Except.ok i0)
    (hd1 : env.dup2Stdout = Except.ok i1)
    (hd2 : env.dup2Stderr = Except.ok i2) :
    (env.setsidRes = -1 →
      Fork.new p env = (Except.error ForkError.SetsidFail,
        [Event.masterNewCall, Event.grantptCall, Event.unlockptCall,
         Event.forkCall, Event.ptsnameCall, Event.setsidCall]) ∧
      Event.slaveNewCall ∉ (Fork.new p env).2 ∧
      (∀ slot : Int, Event.dup2Call slot ∉ (Fork.new p env).2)) ∧
    (¬ env.setsidRes = -1 →
      Fork.new p env = (Except.ok (Fork.Child s),
        [Event.masterNewCall, Event.grantptCall, Event.unlockptCall,
         Event.forkCall, Event.ptsnameCall, Event.setsidCall,
         Event.slaveNewCall, Event.dup2Call STDIN_FILENO,
         Event.dup2Call STDOUT_FILENO, Event.dup2Call STDERR_FILENO]) ∧
      precedes Event.ptsnameCall Event.setsidCall (Fork.new p env).2 = true ∧
      precedes Event.setsidCall Event.slaveNewCall (Fork.new p env).2 = true ∧
      precedes Event.slaveNewCall (Event.dup2Call STDIN_FILENO)
        (Fork.new p env).2 = true) := by
  constructor
  · intro hsid
    have hres : Fork.new p env = (Except.error ForkError.SetsidFail,
        [Event.masterNewCall, Event.grantptCall, Event.unlockptCall,
         Event.forkCall, Event.ptsnameCall, Event.setsidCall]) := by
      simp [Fork.new, Fork.from_pts, hm, hg, hu, hf, hp, hsid,
        errOf, rust_or]
    have htr : (Fork.new p env).2 =
        [Event.masterNewCall, Event.grantptCall, Event.unlockptCall,
         Event.forkCall, Event.ptsnameCall, Event.setsidCall] := by
      rw [hres]
    refine ⟨hres, ?_, ?_⟩
    · rw [htr]; decide
    · intro slot
      rw [htr]
      simp [STDIN_FILENO, STDOUT_FILENO, STDERR_FILENO]
  · intro hsid
    have hres : Fork.new p env = (Except.ok (Fork.Child s),
        [Event.masterNewCall, Event.grantptCall, Event.unlockptCall,
         Event.forkCall, Event.ptsnameCall, Event.setsidCall,
         Event.slaveNewCall, Event.dup2Call STDIN_FILENO,
         Event.dup2Call STDOUT_FILENO, Event.dup2Call STDERR_FILENO]) := by
      simp [Fork.new, Fork.from_pts, hm, hg, hu, hf, hp, hsid, hs,
        hd0, hd1, hd2, errOf, rust_or]
    have htr : (Fork.new p env).2 =
        [Event.masterNewCall, Event.grantptCall, Event.unlockptCall,
         Event.forkCall, Event.ptsnameCall, Event.setsidCall,
         Event.slaveNewCall, Event.dup2Call STDIN_FILENO,
         Event.dup2Call STDOUT_FILENO, Event.dup2Call STDERR_FILENO] := by
      rw [hres]
    refine ⟨hres, ?_, ?_, ?_⟩ <;> rw [htr] <;> decide

/-- Witness for the amended C3 in the fully successful child
environment, where the setsid call does not fail. -/
theorem child_path_order_witness :
    ((envChildOk.setsidRes = -1 →
      Fork.new "/dev/ptmx" envChildOk = (Except.error ForkError.SetsidFail,
        [Event.masterNewCall, Event.grantptCall, Event.unlockptCall,
         Event.forkCall, Event.ptsnameCall, Event.setsidCall]) ∧
      Event.slaveNewCall ∉ (Fork.new "/dev/ptmx" envChildOk).2 ∧
      (∀ slot : Int, Event.dup2Call slot ∉ (Fork.new "/dev/ptmx" envChildOk).2)) ∧
    (¬ envChildOk.setsidRes = -1 →
      Fork.new "/dev/ptmx" envChildOk = (Except.ok (Fork.Child { fd := 4 }),
        [Event.masterNewCall, Event.grantptCall, Event.unlockptCall,
         Event.forkCall, Event.ptsnameCall, Event.setsidCall,
         Event.slaveNewCall, Event.dup2Call STDIN_FILENO,
         Event.dup2Call STDOUT_FILENO, Event.dup2Call STDERR_FILENO]) ∧
      precedes Event.ptsnameCall Event.setsidCall
        (Fork.new "/dev/ptmx" envChildOk).2 = true ∧
      precedes Event.setsidCall Event.slaveNewCall
        (Fork.new "/dev/ptmx" envChildOk).2 = true ∧
      precedes Event.slaveNewCall (Event.dup2Call STDIN_FILENO)
        (Fork.new "/dev/ptmx" envChildOk).2 = true)) :=
  child_path_order "/dev/ptmx" envChildOk { fd := 3 } "/dev/pts/5" { fd := 4 }
    0 1 2 rfl rfl rfl rfl rfl rfl rfl rfl rfl
